import Mathlib

/-!
# Verification of the shopee-agent task-to-action execution framework

Shallow embedding of the core of the `shopee-agent` repository:

* `src/actions/base_action.py` — the Executor template (`BaseAction.execute`),
  payload validation (`BaseAction._validate_payload`), locator access;
* `src/actions/update_title.py` — the mutating `update_title` Action;
* `src/actions/fetch_product_snapshot.py` — the read-only snapshot Action;
* `src/actions/locators.py` — per-site locator tables and `get_locators`;
* `src/core/supabase_store.py` — task/run/artifact store operations
  (`get_next_task`, `update_task_status`, `save_artifact_record`);
* `src/core/ziniao_client.py` — `start_browser` result shape;
* `src/worker.py` — `Worker.get_browser_for_shop` (session pool) and
  `Worker.execute_task` (task lifecycle).

Effectful collaborators (Selenium browser, the ZiNiao session provider, the
Supabase client) are modelled as environments supplying the result of each
call; Python exceptions are modelled with `Except PyErr`.
-/

namespace ShopeeAgent

/-- A Python exception, abstracted to its stringified message (`str(e)`). -/
structure PyErr where
  msg : String
deriving DecidableEq, Repr

/-- A JSON-like Python value, as found in task payloads and result data. -/
inductive Val where
  | str (s : String)
  | num (n : Int)
  | bool (b : Bool)
  | pynone
  | list (xs : List Val)
  | dict (entries : List (String × Val))

/-- Truthiness of a `Val`, mirroring Python `bool(v)`. -/
def Val.truthy : Val → Bool
  | .str s => s != ""
  | .num n => n != 0
  | .bool b => b
  | .pynone => false
  | .list xs => !xs.isEmpty
  | .dict es => !es.isEmpty

/-- A Python dict with string keys, as an association list (insertion order). -/
abbrev PyDict := List (String × Val)

/-- Model of `d.get(key)` / `d[key]` presence: first binding wins, like a Python dict
whose keys are distinct. -/
def PyDict.get (d : PyDict) (key : String) : Option Val :=
  d.lookup key

/-- Model of `d.get(key, default)`. -/
def PyDict.getD (d : PyDict) (key : String) (dflt : Val) : Val :=
  (d.lookup key).getD dflt

/-- Model of `core.browser_controller.ActionResult` (the outcome dataclass). -/
structure ActionResult where
  ok : Bool
  action : String
  data : Option Val := Option.none
  error_code : Option String := Option.none
  error_message : Option String := Option.none
  evidence : Option Val := Option.none
  timing_ms : Option Int := Option.none

/-- Model of `actions.base_action.ActionContext`. -/
structure ActionContext where
  task_id : String
  run_id : String
  shop_id : String
  site : String := "id"
  dry_run : Bool := false
deriving DecidableEq, Repr

/-- Model of `BaseAction._validate_payload`: returns the message for the first
required field missing from the payload, `none` when all are present. -/
def validate_payload (payload : PyDict) : List String → Option String
  | [] => Option.none
  | f :: fs =>
    if (payload.lookup f).isSome then validate_payload payload fs
    else some ("缺少必需字段: " ++ f)

/-! ## Locator configuration (`src/actions/locators.py`) -/

/-- A value in a locator table: either a selector/URL string or a nested
dict, mirroring the nested Python dict literals in `locators.py`. -/
inductive LocEntry where
  | str (s : String)
  | table (entries : List (String × LocEntry))

/-- Model of `SHOPEE_ID`: the Indonesian-site locator table (transcribed verbatim;
apostrophes in selector strings are written with the `\x27` escape). -/
def SHOPEE_ID : List (String × LocEntry) :=
  [ ("base_url", .str "https://seller.shopee.co.id"),
    ("login_url", .str "https://seller.shopee.co.id/account/signin"),
    ("login_check", .table
      [ ("logged_in", .str "css:.navbar-username"),
        ("login_form", .str "css:input[name=\x27loginKey\x27]") ]),
    ("ads_center", .table
      [ ("entry_url", .str "https://seller.shopee.co.id/portal/marketing/pas/assembly"),
        ("summary_section", .str "css:.ads-summary, .marketing-summary"),
        ("total_spend", .str "css:[data-testid=\x27total-spend\x27], .spend-value"),
        ("total_impressions", .str "css:[data-testid=\x27impressions\x27], .impressions-value"),
        ("total_clicks", .str "css:[data-testid=\x27clicks\x27], .clicks-value"),
        ("total_orders", .str "css:[data-testid=\x27orders\x27], .orders-value"),
        ("roas", .str "css:[data-testid=\x27roas\x27], .roas-value"),
        ("date_picker", .str "css:.date-range-picker, [data-testid=\x27date-picker\x27]"),
        ("date_today", .str "css:button:has-text(\x27Hari ini\x27), button:has-text(\x27Today\x27)"),
        ("date_7days", .str "css:button:has-text(\x277 hari\x27), button:has-text(\x277 days\x27)"),
        ("date_30days", .str "css:button:has-text(\x2730 hari\x27), button:has-text(\x2730 days\x27)") ]),
    ("product_list", .table
      [ ("entry_url", .str "https://seller.shopee.co.id/portal/product/list/all"),
        ("search_input", .str "css:input[placeholder*=\x27Cari\x27], input[placeholder*=\x27Search\x27]"),
        ("search_button", .str "css:button[type=\x27submit\x27], .search-btn"),
        ("product_table", .str "css:.product-table, table"),
        ("product_row", .str "css:.product-row, tr.product-item"),
        ("product_name", .str "css:.product-name, .product-title"),
        ("product_sku", .str "css:.product-sku"),
        ("product_price", .str "css:.product-price"),
        ("product_stock", .str "css:.product-stock"),
        ("edit_btn", .str "css:button:has-text(\x27Ubah\x27), button:has-text(\x27Edit\x27)"),
        ("more_actions_btn", .str "css:.more-actions, .dropdown-toggle") ]),
    ("product_edit", .table
      [ ("title_input", .str "css:input[name=\x27name\x27], input[placeholder*=\x27Nama produk\x27], textarea[name=\x27name\x27]"),
        ("description_textarea", .str "css:textarea[name=\x27description\x27], .product-description textarea"),
        ("price_input", .str "css:input[name=\x27price\x27], input[type=\x27number\x27][placeholder*=\x27Harga\x27]"),
        ("stock_input", .str "css:input[name=\x27stock\x27], input[type=\x27number\x27][placeholder*=\x27Stok\x27]"),
        ("sku_input", .str "css:input[name=\x27sku\x27]"),
        ("save_btn", .str "css:button:has-text(\x27Simpan\x27), button:has-text(\x27Save\x27), button[type=\x27submit\x27]"),
        ("save_and_publish_btn", .str "css:button:has-text(\x27Simpan & Tampilkan\x27)"),
        ("cancel_btn", .str "css:button:has-text(\x27Batal\x27), button:has-text(\x27Cancel\x27)"),
        ("success_toast", .str "css:.toast-success, [role=\x27alert\x27]:has-text(\x27Berhasil\x27), .ant-message-success"),
        ("error_toast", .str "css:.toast-error, [role=\x27alert\x27]:has-text(\x27Gagal\x27), .ant-message-error") ]),
    ("order_list", .table
      [ ("entry_url", .str "https://seller.shopee.co.id/portal/sale/order"),
        ("tab_all", .str "css:[data-tab=\x27all\x27]"),
        ("tab_pending", .str "css:[data-tab=\x27toship\x27]"),
        ("tab_shipping", .str "css:[data-tab=\x27shipping\x27]"),
        ("tab_completed", .str "css:[data-tab=\x27completed\x27]"),
        ("order_table", .str "css:.order-table, table"),
        ("order_row", .str "css:.order-row, tr.order-item"),
        ("order_id", .str "css:.order-id"),
        ("order_status", .str "css:.order-status"),
        ("order_total", .str "css:.order-total") ]) ]

/-- Model of `SHOPEE_MY` (stub table, only `base_url`, as in the source). -/
def SHOPEE_MY : List (String × LocEntry) :=
  [("base_url", .str "https://seller.shopee.com.my")]

/-- Model of `SHOPEE_TH` (stub table). -/
def SHOPEE_TH : List (String × LocEntry) :=
  [("base_url", .str "https://seller.shopee.co.th")]

/-- Model of `SHOPEE_VN` (stub table). -/
def SHOPEE_VN : List (String × LocEntry) :=
  [("base_url", .str "https://banhang.shopee.vn")]

/-- Model of `SHOPEE_PH` (stub table). -/
def SHOPEE_PH : List (String × LocEntry) :=
  [("base_url", .str "https://seller.shopee.ph")]

/-- Model of `SHOPEE_SG` (stub table). -/
def SHOPEE_SG : List (String × LocEntry) :=
  [("base_url", .str "https://seller.shopee.sg")]

/-- Model of `get_locators`: Python `sites.get(site, SHOPEE_ID)` over the literal
dict `{"id": ..., "my": ..., "th": ..., "vn": ..., "ph": ..., "sg": ...}`. -/
def get_locators (site : String) : List (String × LocEntry) :=
  if site = "id" then SHOPEE_ID
  else if site = "my" then SHOPEE_MY
  else if site = "th" then SHOPEE_TH
  else if site = "vn" then SHOPEE_VN
  else if site = "ph" then SHOPEE_PH
  else if site = "sg" then SHOPEE_SG
  else SHOPEE_ID

/-- A parsed Selenium locator `(By.XXX, selector)`. -/
inductive Locator where
  | css (s : String)
  | xpath (s : String)
  | byId (s : String)
  | byName (s : String)
deriving DecidableEq, Repr

/-- Model of `parse_locator`: dispatch on the `css:` / `xpath:` / `id:` / `name:`
prefix of the locator string, defaulting to a CSS selector. -/
def parse_locator (s : String) : Locator :=
  if s.startsWith "css:" then .css (s.drop 4)
  else if s.startsWith "xpath:" then .xpath (s.drop 6)
  else if s.startsWith "id:" then .byId (s.drop 3)
  else if s.startsWith "name:" then .byName (s.drop 5)
  else .css s

/-- One step of `BaseAction.loc`'s loop: `config = config.get(key, {})`.
(For the tables in this repository the `.str` case is unreachable on the
key paths the Actions use, since all top-level values are nested dicts;
Python would raise `AttributeError` there.) -/
def locStep : LocEntry → String → LocEntry
  | .table es, key => (es.lookup key).getD (.table [])
  | .str s, _ => .str s

/-- Model of `BaseAction.loc`: walk the loaded locator table along `keys`; return a
parsed locator if the walk ends on a string, else Python `None`. -/
def locKeys (locators : List (String × LocEntry)) (keys : List String) : Option Locator :=
  match keys.foldl locStep (.table locators) with
  | .str s => some (parse_locator s)
  | .table _ => Option.none

/-- Model of `self.locators.get(section, {}).get(key)`: the direct two-level dict
access used for entry URLs, as an optional string. -/
def locUrl (locators : List (String × LocEntry)) (sect key : String) : Option String :=
  match locStep (locStep (.table locators) sect) key with
  | .str s => some s
  | .table _ => Option.none

/-! ## Page-session capability calls (`src/core/browser_controller.py`)

Each Selenium-level call an Action issues against the page session is
recorded in a trace.  The behaviour of the browser (what each call
returns) is supplied by a `BrowserEnv`. -/

/-- One capability call against the page session. -/
inductive BCall where
  | navigate (url : Option String)
  | sendKeys (l : Locator) (text : Val)
  | pressEnter (l : Locator)
  | click (l : Locator)
  | waitFor (l : Locator)
  | getText (l : Locator)
  | scroll (l : Locator)
  | script (src : String)
  | existsCheck (l : Locator)
  | findRows (l : Locator)

/-- Mutating capability calls: typing, clicking, key presses and script
execution (the repo uses `execute_script` to clear fields, dispatch input
events and scroll).  Navigation and reads are read-only. -/
def BCall.isMutating : BCall → Bool
  | .sendKeys .. => true
  | .pressEnter .. => true
  | .click .. => true
  | .script _ => true
  | _ => false

/-- Data one product row exposes to the extraction helpers of
`fetch_product_snapshot` (`None` models a failed `find_element` /
`get_attribute` on that row). -/
structure RowData where
  name : Option String := Option.none
  sku : Option String := Option.none
  price : Option String := Option.none
  stock : Option String := Option.none
  product_id : Option String := Option.none

/-- Behaviour of the browser: the value each capability call returns. -/
structure BrowserEnv where
  navigate : Option String → Bool
  safe_send_keys : Locator → Val → Bool
  wait_and_click : Locator → Bool
  wait_for_element : Locator → Bool
  get_text : Locator → Option String
  check_element_exists : Locator → Bool
  find_rows : Locator → List RowData

/-- Python `str(v)` as used in f-string error messages (container cases
abbreviated; they do not occur on any path a claim exercises). -/
def Val.pyStr : Val → String
  | .str s => s
  | .num n => toString n
  | .bool b => if b then "True" else "False"
  | .pynone => "None"
  | .list _ => "[...]"
  | .dict _ => "\x7b...\x7d"

/-- Python `a or default` on an optional string (`None` and `""` are both
falsy, as in `old_title or "[未获取到原标题]"`). -/
def strOr (o : Option String) (dflt : String) : String :=
  match o with
  | some s => if s = "" then dflt else s
  | Option.none => dflt

/-! ## `UpdateTitleAction` (`src/actions/update_title.py`) -/

namespace UpdateTitle

/-- Model of `UpdateTitleAction._search_product`: type the keyword into the search
box, then click the search button (if configured) or press Enter. -/
def search_product (env : BrowserEnv) (locators : List (String × LocEntry))
    (keyword : Val) : Bool × List BCall :=
  let search_input_loc := locKeys locators ["product_list", "search_input"]
  let search_btn_loc := locKeys locators ["product_list", "search_button"]
  match search_input_loc with
  | Option.none => (false, [])
  | some sin =>
    if !env.safe_send_keys sin keyword then (false, [.sendKeys sin keyword])
    else
      match search_btn_loc with
      | some sbtn =>
        -- wait_and_click's result is ignored in the source
        (true, [.sendKeys sin keyword, .click sbtn])
      | Option.none =>
        if env.wait_for_element sin then
          (true, [.sendKeys sin keyword, .waitFor sin, .pressEnter sin])
        else
          (true, [.sendKeys sin keyword, .waitFor sin])

/-- Model of `UpdateTitleAction._click_edit_button`: read the current title, click
the first edit button; `none` models Python returning `None`. -/
def click_edit_button (env : BrowserEnv) (locators : List (String × LocEntry)) :
    Option String × List BCall :=
  let product_name_loc := locKeys locators ["product_list", "product_name"]
  let (old_title, t0) :=
    match product_name_loc with
    | some l => (env.get_text l, [BCall.getText l])
    | Option.none => (Option.none, [])
  match locKeys locators ["product_list", "edit_btn"] with
  | Option.none => (Option.none, t0)
  | some el =>
    if !env.wait_and_click el then (Option.none, t0 ++ [.click el])
    else (some (strOr old_title "[未获取到原标题]"), t0 ++ [.click el])

/-- Model of `UpdateTitleAction._update_title_field`: wait for the title input,
scroll to it, clear it via script, type the new title, dispatch `input`. -/
def update_title_field (env : BrowserEnv) (locators : List (String × LocEntry))
    (new_title : Val) : Bool × List BCall :=
  match locKeys locators ["product_edit", "title_input"] with
  | Option.none => (false, [])
  | some tl =>
    if !env.wait_for_element tl then (false, [.waitFor tl])
    else
      (true,
        [.waitFor tl, .scroll tl,
         .script "arguments[0].value = \x27\x27;",
         .sendKeys tl new_title,
         .script "arguments[0].dispatchEvent(new Event(\x27input\x27, \x7b bubbles: true \x7d));"])

/-- Model of `UpdateTitleAction._click_save`: scroll to the bottom, click save, then
look for a success or error toast; `(success, message, trace)`. -/
def click_save (env : BrowserEnv) (locators : List (String × LocEntry)) :
    Bool × String × List BCall :=
  match locKeys locators ["product_edit", "save_btn"] with
  | Option.none => (false, "保存按钮定位器未配置", [])
  | some sb =>
    let t0 : List BCall := [.script "window.scrollTo(0, document.body.scrollHeight);"]
    if !env.wait_and_click sb then (false, "无法点击保存按钮", t0 ++ [.click sb])
    else
      let t1 := t0 ++ [BCall.click sb]
      let success_toast_loc := locKeys locators ["product_edit", "success_toast"]
      let error_toast_loc := locKeys locators ["product_edit", "error_toast"]
      match success_toast_loc with
      | some sl =>
        if env.check_element_exists sl then (true, "保存成功", t1 ++ [.existsCheck sl])
        else
          checkErrorToast env error_toast_loc (t1 ++ [.existsCheck sl])
      | Option.none => checkErrorToast env error_toast_loc t1
where
  /-- The error-toast half of `_click_save` (shared tail of both branches). -/
  checkErrorToast (env : BrowserEnv) (error_toast_loc : Option Locator)
      (t : List BCall) : Bool × String × List BCall :=
    match error_toast_loc with
    | some el =>
      if env.check_element_exists el then
        let error_text := env.get_text el
        (false, "保存失败: " ++ (match error_text with | some s => s | Option.none => "None"),
         t ++ [.existsCheck el, .getText el])
      else (true, "保存完成（未检测到明确提示）", t ++ [.existsCheck el])
    | Option.none => (true, "保存完成（未检测到明确提示）", t)

/-- Model of `UpdateTitleAction._do_action`: validate the payload, honour dry-run,
then navigate → search → edit → retype title → save. -/
def do_action (env : BrowserEnv) (locators : List (String × LocEntry))
    (context : ActionContext) (payload : PyDict) : ActionResult × List BCall :=
  match validate_payload payload ["product_id", "new_title"] with
  | some err =>
    ({ ok := false, action := "update_title",
       error_code := some "VALIDATION_ERROR", error_message := some err }, [])
  | Option.none =>
    let product_id := payload.getD "product_id" .pynone
    let new_title := payload.getD "new_title" .pynone
    let product_name := payload.getD "product_name" product_id
    if context.dry_run then
      ({ ok := true, action := "update_title",
         data := some (.dict
           [("product_id", product_id), ("new_title", new_title),
            ("dry_run", .bool true), ("message", .str "Dry run 模式，未实际执行")]) }, [])
    else
      let url := locUrl locators "product_list" "entry_url"
      let tNav : List BCall := [.navigate url]
      if !env.navigate url then
        ({ ok := false, action := "update_title",
           error_code := some "NAVIGATION_ERROR",
           error_message := some "无法打开商品列表页" }, tNav)
      else
        let (searched, tSearch) := search_product env locators product_name
        if !searched then
          ({ ok := false, action := "update_title",
             error_code := some "SEARCH_ERROR",
             error_message := some ("搜索商品失败: " ++ product_name.pyStr) },
           tNav ++ tSearch)
        else
          let (old_title?, tEdit) := click_edit_button env locators
          match old_title? with
          | Option.none =>
            ({ ok := false, action := "update_title",
               error_code := some "PRODUCT_NOT_FOUND",
               error_message := some ("未找到商品或无法点击编辑: " ++ product_id.pyStr) },
             tNav ++ tSearch ++ tEdit)
          | some old_title =>
            let (updated, tUpd) := update_title_field env locators new_title
            if !updated then
              ({ ok := false, action := "update_title",
                 error_code := some "UPDATE_ERROR",
                 error_message := some "无法修改标题字段" },
               tNav ++ tSearch ++ tEdit ++ tUpd)
            else
              let (saved, msg, tSave) := click_save env locators
              if !saved then
                ({ ok := false, action := "update_title",
                   error_code := some "SAVE_ERROR", error_message := some msg },
                 tNav ++ tSearch ++ tEdit ++ tUpd ++ tSave)
              else
                ({ ok := true, action := "update_title",
                   data := some (.dict
                     [("product_id", product_id), ("before_title", .str old_title),
                      ("after_title", new_title)]) },
                 tNav ++ tSearch ++ tEdit ++ tUpd ++ tSave)

end UpdateTitle

/-! ## `FetchProductSnapshotAction` (`src/actions/fetch_product_snapshot.py`) -/

namespace FetchSnapshot

/-- Map an optional string into the Python value stored in a product dict
(`None` when the element/text was absent). -/
def optVal (o : Option String) : Val :=
  match o with
  | some s => .str s
  | Option.none => .pynone

/-- Model of `FetchProductSnapshotAction._search_product`: type the keyword and
press Enter (this variant has no search-button branch). -/
def search_product (env : BrowserEnv) (locators : List (String × LocEntry))
    (keyword : Val) : Bool × List BCall :=
  match locKeys locators ["product_list", "search_input"] with
  | Option.none => (false, [])
  | some sin =>
    if !env.safe_send_keys sin keyword then (false, [.sendKeys sin keyword])
    else if env.wait_for_element sin then
      (true, [.sendKeys sin keyword, .waitFor sin, .pressEnter sin])
    else (true, [.sendKeys sin keyword, .waitFor sin])

/-- Model of `FetchProductSnapshotAction._extract_product_from_row`: build the
product dict from one row; valid only when the (stripped) name is a
non-empty string. -/
def extract_product_from_row (row : RowData) (index : Nat) : Option PyDict :=
  let name := row.name.map (·.trim)
  let product : PyDict :=
    [("index", .num index),
     ("name", optVal name),
     ("sku", optVal (row.sku.map (·.trim))),
     ("price", optVal (row.price.map (·.trim))),
     ("stock", optVal (row.stock.map (·.trim))),
     ("status", .pynone),
     ("product_id", optVal row.product_id)]
  match name with
  | some s => if s ≠ "" then some product else Option.none
  | Option.none => Option.none

/-- The inner loop of `_extract_products`: keep the valid products among
the first `limit` rows, numbering rows from `index`. -/
def extractRows (rows : List RowData) (index : Nat) : List PyDict :=
  match rows with
  | [] => []
  | r :: rs =>
    match extract_product_from_row r index with
    | some p => p :: extractRows rs (index + 1)
    | Option.none => extractRows rs (index + 1)

/-- Model of `FetchProductSnapshotAction._extract_products`: find the product rows
(with a hard-coded fallback locator), slice to `limit`, extract each.
A non-integer `limit` raises `TypeError` inside the `try`, which the bare
`except` swallows, leaving the accumulated (empty) list.  (A negative
`limit` is modelled as an empty slice.) -/
def extract_products (env : BrowserEnv) (locators : List (String × LocEntry))
    (limit : Val) : List PyDict × List BCall :=
  let row_loc :=
    match locKeys locators ["product_list", "product_row"] with
    | some l => l
    | Option.none => .css "tr[data-product-id], .product-item"
  match limit with
  | .num n =>
    let rows := (env.find_rows row_loc).take n.toNat
    (extractRows rows 0, [.findRows row_loc])
  | _ => ([], [.findRows row_loc])

/-- Model of `FetchProductSnapshotAction._do_action`: navigate to the product list,
optionally search, extract up to `limit` products.  Note: there is no
dry-run check anywhere in this variant. -/
def do_action (env : BrowserEnv) (locators : List (String × LocEntry))
    (_context : ActionContext) (payload : PyDict) : ActionResult × List BCall :=
  let keyword := payload.getD "keyword" (.str "")
  let limit := payload.getD "limit" (.num 10)
  let url := locUrl locators "product_list" "entry_url"
  let tNav : List BCall := [.navigate url]
  if !env.navigate url then
    ({ ok := false, action := "fetch_product_snapshot",
       error_code := some "NAVIGATION_ERROR",
       error_message := some "无法打开商品列表页" }, tNav)
  else
    let tSearch :=
      if keyword.truthy then (search_product env locators keyword).2 else []
    let (products, tExtract) := extract_products env locators limit
    if !products.isEmpty then
      ({ ok := true, action := "fetch_product_snapshot",
         data := some (.dict
           [("keyword", keyword),
            ("count", .num products.length),
            ("products", .list (products.map .dict))]) },
       tNav ++ tSearch ++ tExtract)
    else
      ({ ok := false, action := "fetch_product_snapshot",
         error_code := some "NO_PRODUCTS",
         error_message := some "未找到任何商品" },
       tNav ++ tSearch ++ tExtract)

end FetchSnapshot

/-! ## The Executor template (`BaseAction.execute`, `src/actions/base_action.py`)

`execute` wraps an Action's `_do_action` with evidence capture and
exception-to-outcome conversion.  The effectful steps it runs — screenshot
capture (`BrowserController.screenshot_evidence`, which calls Selenium's
`save_screenshot` with no exception handling of its own), artifact
persistence (`SupabaseStore.save_artifact_record`, a network insert) and
the inner action — are supplied by an `ExecEnv` as `Except PyErr` values;
`.error` models the Python call raising.  The artifact records inserted
into the store are collected in a list (Python state mutations survive a
later exception, so the list is returned on every path). -/

/-- Model of `core.supabase_store.ArtifactType`. -/
inductive ArtifactType where
  | before
  | after
  | error
  | trace
deriving DecidableEq, Repr

/-- One row of the `agent_artifacts` table, as inserted by
`SupabaseStore.save_artifact_record`. -/
structure Artifact where
  run_id : String
  atype : ArtifactType
  url : String
deriving DecidableEq, Repr

/-- Model of `SupabaseStore.save_artifact_record`: records `local://<path>`. -/
def save_artifact_record (run_id : String) (atype : ArtifactType)
    (local_path : String) : Artifact :=
  { run_id := run_id, atype := atype, url := "local://" ++ local_path }

/-- Behaviour of the effectful steps of one `BaseAction.execute` call. -/
structure ExecEnv where
  /-- `self.store` is attached (truthy). -/
  hasStore : Bool
  /-- `screenshot_evidence(run_id, "before")`: path, or raises. -/
  shotBefore : Except PyErr String
  /-- the before-artifact insert: unit, or raises. -/
  saveBefore : Except PyErr Unit
  /-- `self._do_action(context, payload)`: result, or raises. -/
  doAction : Except PyErr ActionResult
  /-- `screenshot_evidence(run_id, "after")`. -/
  shotAfter : Except PyErr String
  /-- the after-artifact insert. -/
  saveAfter : Except PyErr Unit
  /-- `screenshot_evidence(run_id, "error")`. -/
  shotError : Except PyErr String
  /-- the error-artifact insert. -/
  saveError : Except PyErr Unit
  /-- wall-clock elapsed milliseconds at the return point. -/
  elapsedMs : Int

/-- The `except Exception` handler of `BaseAction.execute`: capture an
error screenshot (when a store is attached), record the artifact, and
synthesize the `EXCEPTION` outcome.  A failure of the capture or the
insert here escapes the handler, so it propagates to the caller. -/
def executeExceptBranch (env : ExecEnv) (action_name run_id : String) (e : PyErr)
    (arts : List Artifact) : Except PyErr ActionResult × List Artifact :=
  if env.hasStore then
    match env.shotError with
    | .error e2 => (.error e2, arts)
    | .ok errPath =>
      match env.saveError with
      | .error e2 => (.error e2, arts)
      | .ok _ =>
        (.ok { ok := false, action := action_name,
               error_code := some "EXCEPTION",
               error_message := some e.msg,
               evidence := some (.dict [("error_png", .str errPath)]),
               timing_ms := some env.elapsedMs },
         arts ++ [save_artifact_record run_id .error errPath])
  else
    (.ok { ok := false, action := action_name,
           error_code := some "EXCEPTION",
           error_message := some e.msg,
           evidence := Option.none,
           timing_ms := some env.elapsedMs }, arts)

/-- The `try` block of `BaseAction.execute`: run the inner action; on a
successful outcome with a store attached, capture and record the `after`
screenshot and attach the evidence references; any exception raised in
the block falls into the handler. -/
def executeTryBranch (env : ExecEnv) (action_name run_id : String)
    (beforePath : Option String) (arts : List Artifact) :
    Except PyErr ActionResult × List Artifact :=
  match env.doAction with
  | .error e => executeExceptBranch env action_name run_id e arts
  | .ok result =>
    if env.hasStore && result.ok then
      match env.shotAfter with
      | .error e => executeExceptBranch env action_name run_id e arts
      | .ok afterPath =>
        match env.saveAfter with
        | .error e => executeExceptBranch env action_name run_id e arts
        | .ok _ =>
          (.ok { result with
                 evidence := some (.dict
                   [("before_png", FetchSnapshot.optVal beforePath),
                    ("after_png", .str afterPath)]),
                 timing_ms := some env.elapsedMs },
           arts ++ [save_artifact_record run_id .after afterPath])
    else
      (.ok { result with timing_ms := some env.elapsedMs }, arts)

/-- Model of `BaseAction.execute` (the Executor template).  The `before` capture and
insert run before the `try` block, so their exceptions propagate. -/
def execute (env : ExecEnv) (action_name run_id : String) :
    Except PyErr ActionResult × List Artifact :=
  if env.hasStore then
    match env.shotBefore with
    | .error e => (.error e, [])
    | .ok beforePath =>
      match env.saveBefore with
      | .error e => (.error e, [])
      | .ok _ =>
        executeTryBranch env action_name run_id (some beforePath)
          [save_artifact_record run_id .before beforePath]
  else
    executeTryBranch env action_name run_id Option.none []

/-! ## Task store (`src/core/supabase_store.py`) -/

/-- Model of `core.supabase_store.TaskStatus`. -/
inductive TaskStatus where
  | queued
  | running
  | success
  | failed
deriving DecidableEq, Repr

/-- Position of a status along the task lifecycle
`queued → running → {success | failed}` (both terminal states rank 2). -/
def statusRank : TaskStatus → Nat
  | .queued => 0
  | .running => 1
  | .success => 2
  | .failed => 2

/-- One row of `agent_tasks`, restricted to the columns `get_next_task`
queries.  `created_at` is the creation timestamp (ISO-8601 strings order
lexicographically, i.e. chronologically; modelled as `Nat`). -/
structure QTask where
  id : String
  status : TaskStatus
  priority : Int
  created_at : Nat
deriving DecidableEq, Repr

/-- Model of `ORDER BY priority DESC, created_at ASC`: `b` sorts strictly before
`a`. -/
def sortsBefore (b a : QTask) : Bool :=
  b.priority > a.priority || (b.priority == a.priority && b.created_at < a.created_at)

/-- Scan of the queued tasks keeping the first-encountered minimum of the
sort key, i.e. the row `LIMIT 1` returns. -/
def pickBest : Option QTask → QTask → Option QTask
  | Option.none, t => some t
  | some a, t => if sortsBefore t a then some t else some a

/-- Model of `SupabaseStore.get_next_task`: the first queued task under
`ORDER BY priority DESC, created_at ASC LIMIT 1`, `None` if no queued
task exists. -/
def get_next_task (tasks : List QTask) : Option QTask :=
  (tasks.filter (fun t => t.status == .queued)).foldl pickBest Option.none

/-- Model of `SupabaseStore.update_task_status` restricted to one task's row. -/
def update_task_status (tasks : List QTask) (task_id : String)
    (status : TaskStatus) : List QTask :=
  tasks.map (fun t => if t.id == task_id then { t with status := status } else t)

/-- Repeatedly select the next task and mark it `running`, collecting the
selection order (fuel-bounded). -/
def drainOrder : Nat → List QTask → List String
  | 0, _ => []
  | fuel + 1, tasks =>
    match get_next_task tasks with
    | Option.none => []
    | some t => t.id :: drainOrder fuel (update_task_status tasks t.id .running)

/-! ## Session pool (`Worker.get_browser_for_shop`, `src/worker.py`) -/

/-- The identity of a live browser controller: the session endpoint it was
bound to (`core/browser_controller.py` constructor arguments). -/
structure BrowserController where
  debugging_port : Int
  core_version : String
deriving DecidableEq, Repr

/-- Model of `core.ziniao_client.StartBrowserResult` (the provisioning response). -/
structure StartBrowserResult where
  success : Bool
  debugging_port : Option Int := Option.none
  core_type : Option String := Option.none
  core_version : Option String := Option.none
  error : Option String := Option.none
deriving DecidableEq, Repr

/-- Behaviour of the external collaborators `get_browser_for_shop` calls:
the ZiNiao provisioning service and Selenium's `connect`. -/
structure PoolEnv where
  /-- `self.shop_browser_map`: tenant → provisioning (browser) id. -/
  shop_browser_map : List (String × String)
  /-- `self.ziniao.start_browser(browser_id, headless)`. -/
  start_browser : String → StartBrowserResult
  /-- `controller.connect()` for the controller on a given endpoint. -/
  connect : Int → Bool

/-- The major component of the returned core version, as in
`result.core_version.split(".")[0] if result.core_version else "131"`. -/
def coreMajor (cv : Option String) : String :=
  match cv with
  | some s => (s.splitOn ".").headD "131"
  | Option.none => "131"

/-- Model of `Worker.get_browser_for_shop`: return the cached live controller if
one exists; otherwise resolve the ZiNiao browser id, start a session,
connect a fresh controller and cache it.  Returns the controller (or
Python `None`), the updated `active_browsers` map, and the number of
provisioning (`start_browser`) calls issued. -/
def get_browser_for_shop (env : PoolEnv)
    (active_browsers : List (String × BrowserController)) (shop_id : String) :
    Option BrowserController × List (String × BrowserController) × Nat :=
  match active_browsers.lookup shop_id with
  | some c => (some c, active_browsers, 0)
  | Option.none =>
    match env.shop_browser_map.lookup shop_id with
    | Option.none => (Option.none, active_browsers, 0)
    | some browser_id =>
      let r := env.start_browser browser_id
      if !r.success then (Option.none, active_browsers, 1)
      else
        -- on success the client always sets debugging_port (int(...))
        let port := r.debugging_port.getD 0
        let controller : BrowserController :=
          { debugging_port := port, core_version := coreMajor r.core_version }
        if !env.connect port then (Option.none, active_browsers, 1)
        else (some controller, active_browsers ++ [(shop_id, controller)], 1)

/-! ## Worker task execution (`Worker.execute_task`, `src/worker.py`) -/

/-- Model of `ACTION_REGISTRY` (`src/actions/__init__.py`): the registered Action
names. -/
def ACTION_REGISTRY : List String :=
  ["fetch_ads_summary", "update_title", "fetch_product_snapshot"]

/-- Everything `Worker.execute_task` writes back to the store for one
task, in order. -/
structure TaskTrace where
  /-- the `update_task_status` calls issued, in order. -/
  statuses : List TaskStatus
  /-- the `error` argument of `complete_run`. -/
  runError : Option String
  /-- the artifact records inserted during `action.execute`. -/
  artifacts : List Artifact
  /-- whether an Action's `execute` was ever invoked. -/
  actionInvoked : Bool

/-- Model of `Worker.execute_task`: mark running, create a run, resolve the
session, resolve the Action, drive the Executor, write back run result
and final status.  A raise anywhere in the `try` block (no browser,
unknown action, or `execute` itself propagating) lands in the handler,
which records the error on the run and fails the task.  Store writes
themselves are modelled as reliable. -/
def execute_task (penv : PoolEnv)
    (active_browsers : List (String × BrowserController)) (execEnv : ExecEnv)
    (shop_id action_name run_id : String) :
    TaskTrace × List (String × BrowserController) :=
  let (browser?, active', _) := get_browser_for_shop penv active_browsers shop_id
  match browser? with
  | Option.none =>
    -- `raise Exception(f"无法获取店铺 {shop_id} 的浏览器")`
    ({ statuses := [.running, .failed],
       runError := some ("无法获取店铺 " ++ shop_id ++ " 的浏览器"),
       artifacts := [], actionInvoked := false }, active')
  | some _ =>
    if action_name ∉ ACTION_REGISTRY then
      -- `get_action_class` raises `ValueError(f"未知的 Action: ...")`
      ({ statuses := [.running, .failed],
         runError := some ("未知的 Action: " ++ action_name),
         artifacts := [], actionInvoked := false }, active')
    else
      match execute execEnv action_name run_id with
      | (.error e, arts) =>
        ({ statuses := [.running, .failed], runError := some e.msg,
           artifacts := arts, actionInvoked := true }, active')
      | (.ok result, arts) =>
        if result.ok then
          ({ statuses := [.running, .success], runError := Option.none,
             artifacts := arts, actionInvoked := true }, active')
        else
          ({ statuses := [.running, .failed], runError := result.error_message,
             artifacts := arts, actionInvoked := true }, active')

/-! ## Theorems -/

/-- Shared helper: a payload missing `product_id` or `new_title` makes
`UpdateTitleAction._do_action` return the `VALIDATION_ERROR` outcome for
some missing key, with an empty capability-call trace. -/
theorem update_title_validation_aux (env : BrowserEnv)
    (locators : List (String × LocEntry)) (context : ActionContext)
    (payload : PyDict)
    (h : payload.lookup "product_id" = Option.none ∨
         payload.lookup "new_title" = Option.none) :
    ∃ k, payload.lookup k = Option.none ∧
      UpdateTitle.do_action env locators context payload =
        ({ ok := false, action := "update_title",
           error_code := some "VALIDATION_ERROR",
           error_message := some ("缺少必需字段: " ++ k) }, []) := by
  cases hpid : payload.lookup "product_id" with
  | none =>
    refine ⟨"product_id", hpid, ?_⟩
    simp [UpdateTitle.do_action, validate_payload, hpid]
  | some v =>
    have hnt : payload.lookup "new_title" = Option.none := by
      rcases h with h | h
      · rw [hpid] at h; exact absurd h (by simp)
      · exact h
    refine ⟨"new_title", hnt, ?_⟩
    simp [UpdateTitle.do_action, validate_payload, hpid, hnt]

/-- C7: for every payload missing `new_title` (or `product_id`), the
`update_title` Action returns `ok=false` with
`error_code="VALIDATION_ERROR"`, a message naming the missing key, and
issues zero capability calls against the page session. -/
theorem update_title_missing_key_validation (env : BrowserEnv)
    (locators : List (String × LocEntry)) (context : ActionContext)
    (payload : PyDict)
    (h : payload.lookup "product_id" = Option.none ∨
         payload.lookup "new_title" = Option.none) :
    (UpdateTitle.do_action env locators context payload).1.ok = false ∧
    (UpdateTitle.do_action env locators context payload).1.error_code =
      some "VALIDATION_ERROR" ∧
    (∃ k, payload.lookup k = Option.none ∧
      (UpdateTitle.do_action env locators context payload).1.error_message =
        some ("缺少必需字段: " ++ k)) ∧
    (UpdateTitle.do_action env locators context payload).2 = [] := by
  obtain ⟨k, hk, heq⟩ := update_title_validation_aux env locators context payload h
  rw [heq]
  exact ⟨rfl, rfl, ⟨k, hk, rfl⟩, rfl⟩

/-- A browser all of whose calls fail or find nothing (used to instantiate
witnesses; the claims hold for every browser behaviour). -/
def deadBrowser : BrowserEnv where
  navigate := fun _ => false
  safe_send_keys := fun _ _ => false
  wait_and_click := fun _ => false
  wait_for_element := fun _ => false
  get_text := fun _ => Option.none
  check_element_exists := fun _ => false
  find_rows := fun _ => []

/-- A context with `dry_run=true`. -/
def dryContext : ActionContext :=
  { task_id := "t-1", run_id := "r-1", shop_id := "shop-1", site := "id",
    dry_run := true }

/-- Witness for C7 at a concrete empty payload. -/
theorem update_title_missing_key_validation_witness :
    (UpdateTitle.do_action deadBrowser SHOPEE_ID dryContext []).1.ok = false ∧
    (UpdateTitle.do_action deadBrowser SHOPEE_ID dryContext []).1.error_code =
      some "VALIDATION_ERROR" ∧
    (∃ k, ([] : PyDict).lookup k = Option.none ∧
      (UpdateTitle.do_action deadBrowser SHOPEE_ID dryContext []).1.error_message =
        some ("缺少必需字段: " ++ k)) ∧
    (UpdateTitle.do_action deadBrowser SHOPEE_ID dryContext []).2 = [] :=
  update_title_missing_key_validation deadBrowser SHOPEE_ID dryContext []
    (Or.inl rfl)

/-- C9: with `dry_run=true` and a required key missing, `update_title`
still fails validation (`ok=false`, `VALIDATION_ERROR`) instead of
returning the `ok=true` dry-run outcome: validation precedes the
dry-run short-circuit. -/
theorem update_title_validation_precedes_dry_run (env : BrowserEnv)
    (locators : List (String × LocEntry)) (context : ActionContext)
    (payload : PyDict) (_hdry : context.dry_run = true)
    (h : payload.lookup "product_id" = Option.none ∨
         payload.lookup "new_title" = Option.none) :
    (UpdateTitle.do_action env locators context payload).1.ok = false ∧
    (UpdateTitle.do_action env locators context payload).1.error_code =
      some "VALIDATION_ERROR" ∧
    ¬ (UpdateTitle.do_action env locators context payload).1.data =
        some (.dict
          [("product_id", payload.getD "product_id" .pynone),
           ("new_title", payload.getD "new_title" .pynone),
           ("dry_run", .bool true),
           ("message", .str "Dry run 模式，未实际执行")]) := by
  obtain ⟨k, hk, heq⟩ := update_title_validation_aux env locators context payload h
  rw [heq]
  exact ⟨rfl, rfl, by simp⟩

/-- Witness for C9 at a concrete payload carrying only `product_id`. -/
theorem update_title_validation_precedes_dry_run_witness :
    (UpdateTitle.do_action deadBrowser SHOPEE_ID dryContext
        [("product_id", .str "P1")]).1.ok = false ∧
    (UpdateTitle.do_action deadBrowser SHOPEE_ID dryContext
        [("product_id", .str "P1")]).1.error_code = some "VALIDATION_ERROR" ∧
    ¬ (UpdateTitle.do_action deadBrowser SHOPEE_ID dryContext
        [("product_id", .str "P1")]).1.data =
      some (.dict
        [("product_id", PyDict.getD [("product_id", .str "P1")] "product_id" .pynone),
         ("new_title", PyDict.getD [("product_id", .str "P1")] "new_title" .pynone),
         ("dry_run", .bool true),
         ("message", .str "Dry run 模式，未实际执行")]) :=
  update_title_validation_precedes_dry_run deadBrowser SHOPEE_ID dryContext
    [("product_id", .str "P1")] rfl (Or.inr rfl)

/-- C10: `get_locators` is total and silently falls back to the
Indonesian table: every site code outside `id/my/th/vn/ph/sg` yields
`SHOPEE_ID` rather than an error. -/
theorem get_locators_unknown_site_falls_back (site : String)
    (h : site ∉ ["id", "my", "th", "vn", "ph", "sg"]) :
    get_locators site = SHOPEE_ID := by
  simp only [List.mem_cons, List.not_mem_nil, or_false, not_or] at h
  obtain ⟨h1, h2, h3, h4, h5, h6⟩ := h
  simp [get_locators, h1, h2, h3, h4, h5, h6]

/-- Witness for C10 at the unrecognized site code `"br"`. -/
theorem get_locators_unknown_site_falls_back_witness :
    get_locators "br" = SHOPEE_ID :=
  get_locators_unknown_site_falls_back "br" (by decide)

/-- View of an Executor invocation: `some r.ok` when it returned an
outcome, `none` when an exception propagated to the caller. -/
def outcomeOk (x : Except PyErr ActionResult × List Artifact) : Option Bool :=
  match x.1 with
  | .ok r => some r.ok
  | .error _ => Option.none

/-- The `ExecEnv` of an Executor invocation of `fetch_product_snapshot`
with no store attached, a `dry_run=true` context, and the failing
browser. -/
def snapshotDryRunExecEnv : ExecEnv where
  hasStore := false
  shotBefore := .ok "before.png"
  saveBefore := .ok ()
  doAction := .ok (FetchSnapshot.do_action deadBrowser SHOPEE_ID dryContext
    [("keyword", .str ""), ("limit", .num 3)]).1
  shotAfter := .ok "after.png"
  saveAfter := .ok ()
  shotError := .ok "error.png"
  saveError := .ok ()
  elapsedMs := 0

/-- C4 counterexample: executing the registered `fetch_product_snapshot`
variant with `dry_run=true` does not yield `ok=true` — the variant has no
dry-run check at all, so here the outcome is `ok=false` (and carries no
`data.dry_run`), refuting the claim for this Action/payload. -/
theorem dry_run_counterexample :
    outcomeOk (execute snapshotDryRunExecEnv "fetch_product_snapshot" "r-1") =
      some false := by rfl

/-- C4 (amended): the mutating `update_title` variant honours the dry-run
contract: with its required keys present and `dry_run=true` it returns
`ok=true` with `data.dry_run=true` and issues zero capability calls
(hence zero mutating calls); the read-only fetch variants ignore the
flag. -/
theorem update_title_dry_run_short_circuit (env : BrowserEnv)
    (locators : List (String × LocEntry)) (context : ActionContext)
    (payload : PyDict) (hdry : context.dry_run = true)
    (hpid : (payload.lookup "product_id").isSome = true)
    (hnt : (payload.lookup "new_title").isSome = true) :
    (UpdateTitle.do_action env locators context payload).1.ok = true ∧
    (UpdateTitle.do_action env locators context payload).1.data =
      some (.dict
        [("product_id", payload.getD "product_id" .pynone),
         ("new_title", payload.getD "new_title" .pynone),
         ("dry_run", .bool true),
         ("message", .str "Dry run 模式，未实际执行")]) ∧
    (UpdateTitle.do_action env locators context payload).2 = [] ∧
    ((UpdateTitle.do_action env locators context payload).2.filter
      BCall.isMutating) = [] := by
  simp [UpdateTitle.do_action, validate_payload, hpid, hnt, hdry, PyDict.getD]

/-- Witness for the amended C4 at a concrete valid payload. -/
theorem update_title_dry_run_short_circuit_witness :
    (UpdateTitle.do_action deadBrowser SHOPEE_ID dryContext
        [("product_id", .str "P1"), ("new_title", .str "T")]).1.ok = true ∧
    (UpdateTitle.do_action deadBrowser SHOPEE_ID dryContext
        [("product_id", .str "P1"), ("new_title", .str "T")]).1.data =
      some (.dict
        [("product_id", PyDict.getD [("product_id", .str "P1"), ("new_title", .str "T")] "product_id" .pynone),
         ("new_title", PyDict.getD [("product_id", .str "P1"), ("new_title", .str "T")] "new_title" .pynone),
         ("dry_run", .bool true),
         ("message", .str "Dry run 模式，未实际执行")]) ∧
    (UpdateTitle.do_action deadBrowser SHOPEE_ID dryContext
        [("product_id", .str "P1"), ("new_title", .str "T")]).2 = [] ∧
    ((UpdateTitle.do_action deadBrowser SHOPEE_ID dryContext
        [("product_id", .str "P1"), ("new_title", .str "T")]).2.filter
      BCall.isMutating) = [] :=
  update_title_dry_run_short_circuit deadBrowser SHOPEE_ID dryContext
    [("product_id", .str "P1"), ("new_title", .str "T")] rfl rfl rfl

/-- An `ExecEnv` whose `before` screenshot capture raises (Selenium's
`save_screenshot` failing inside `screenshot_evidence`), with every other
step healthy and the inner action succeeding. -/
def beforeShotCrashEnv : ExecEnv where
  hasStore := true
  shotBefore := .error ⟨"screenshot failed"⟩
  saveBefore := .ok ()
  doAction := .ok { ok := true, action := "update_title" }
  shotAfter := .ok "after.png"
  saveAfter := .ok ()
  shotError := .ok "error.png"
  saveError := .ok ()
  elapsedMs := 7

/-- C1 counterexample: when the `before` screenshot capture raises, the
Executor propagates the exception to its caller — no `ActionOutcome` is
returned and no absent-evidence record is made (the capture runs before
the `try` block in `BaseAction.execute`). -/
theorem executor_before_capture_crash_counterexample :
    execute beforeShotCrashEnv "update_title" "r-1" =
      (.error ⟨"screenshot failed"⟩, []) := by rfl

/-- Helper: the `except` handler returns an outcome provided its own
capture and insert do not raise. -/
theorem executeExceptBranch_ok (env : ExecEnv) (a r : String) (e : PyErr)
    (arts : List Artifact)
    (h : env.hasStore = true →
      (∃ p, env.shotError = .ok p) ∧ env.saveError = .ok ()) :
    ∃ res arts', executeExceptBranch env a r e arts = (.ok res, arts') := by
  cases hs : env.hasStore with
  | false =>
    exact ⟨{ ok := false, action := a, error_code := some "EXCEPTION",
             error_message := some e.msg, evidence := Option.none,
             timing_ms := some env.elapsedMs }, arts,
           by simp [executeExceptBranch, hs]⟩
  | true =>
    obtain ⟨⟨p, hp⟩, hsave⟩ := h hs
    exact ⟨{ ok := false, action := a, error_code := some "EXCEPTION",
             error_message := some e.msg,
             evidence := some (.dict [("error_png", .str p)]),
             timing_ms := some env.elapsedMs },
           arts ++ [save_artifact_record r .error p],
           by simp [executeExceptBranch, hs, hp, hsave]⟩

/-- Helper: the `try` block returns an outcome provided the handler's
capture and insert do not raise — the inner action raising, and even the
`after` capture raising, are converted to outcomes. -/
theorem executeTryBranch_ok (env : ExecEnv) (a r : String)
    (beforePath : Option String) (arts : List Artifact)
    (h : env.hasStore = true →
      (∃ p, env.shotError = .ok p) ∧ env.saveError = .ok ()) :
    ∃ res arts', executeTryBranch env a r beforePath arts = (.ok res, arts') := by
  cases hda : env.doAction with
  | error e =>
    simpa [executeTryBranch, hda] using executeExceptBranch_ok env a r e arts h
  | ok result =>
    cases hss : env.hasStore && result.ok with
    | false =>
      exact ⟨{ result with timing_ms := some env.elapsedMs }, arts,
             by simp [executeTryBranch, hda, hss]⟩
    | true =>
      cases hsa : env.shotAfter with
      | error e =>
        simpa [executeTryBranch, hda, hss, hsa] using
          executeExceptBranch_ok env a r e arts h
      | ok afterPath =>
        cases hva : env.saveAfter with
        | error e =>
          simpa [executeTryBranch, hda, hss, hsa, hva] using
            executeExceptBranch_ok env a r e arts h
        | ok u =>
          exact ⟨{ result with
                   evidence := some (.dict
                     [("before_png", FetchSnapshot.optVal beforePath),
                      ("after_png", .str afterPath)]),
                   timing_ms := some env.elapsedMs },
                 arts ++ [save_artifact_record r .after afterPath],
                 by simp [executeTryBranch, hda, hss, hsa, hva]⟩

/-- C1 (amended): `BaseAction.execute` never propagates an exception from
the inner action logic — provided the `before` capture/insert and the
handler's `error` capture/insert do not themselves raise (when a store is
attached), every invocation returns an `ActionOutcome`; but a failure of
those capture steps propagates to the caller (see the counterexample). -/
theorem executor_returns_outcome_when_capture_succeeds (env : ExecEnv)
    (a r : String)
    (h : env.hasStore = true →
      (∃ p, env.shotBefore = .ok p) ∧ env.saveBefore = .ok () ∧
      (∃ p, env.shotError = .ok p) ∧ env.saveError = .ok ()) :
    ∃ res arts, execute env a r = (.ok res, arts) := by
  cases hs : env.hasStore with
  | false =>
    have h' : env.hasStore = true →
        (∃ p, env.shotError = .ok p) ∧ env.saveError = .ok () := by
      intro hc; rw [hs] at hc; cases hc
    simpa [execute, hs] using executeTryBranch_ok env a r Option.none [] h'
  | true =>
    obtain ⟨⟨pb, hpb⟩, hsb, herr1, herr2⟩ := h hs
    have h' : env.hasStore = true →
        (∃ p, env.shotError = .ok p) ∧ env.saveError = .ok () :=
      fun _ => ⟨herr1, herr2⟩
    simpa [execute, hs, hpb, hsb] using
      executeTryBranch_ok env a r (some pb)
        [save_artifact_record r .before pb] h'

/-- A fully healthy store-attached `ExecEnv` whose inner action raises. -/
def raisingActionEnv : ExecEnv where
  hasStore := true
  shotBefore := .ok "before.png"
  saveBefore := .ok ()
  doAction := .error ⟨"element not found"⟩
  shotAfter := .ok "after.png"
  saveAfter := .ok ()
  shotError := .ok "error.png"
  saveError := .ok ()
  elapsedMs := 42

/-- Witness for the amended C1: the inner action raising still yields a
returned outcome. -/
theorem executor_returns_outcome_when_capture_succeeds_witness :
    ∃ res arts, execute raisingActionEnv "update_title" "r-1" = (.ok res, arts) :=
  executor_returns_outcome_when_capture_succeeds raisingActionEnv "update_title"
    "r-1" (fun _ => ⟨⟨"before.png", rfl⟩, rfl, ⟨"error.png", rfl⟩, rfl⟩)

/-- Number of artifacts of a given type among the records inserted. -/
def countType (t : ArtifactType) (arts : List Artifact) : Nat :=
  (arts.filter (fun a => a.atype == t)).length

/-- C2: with a store attached (and the capture steps behaving), one
Executor invocation records exactly one `before` artifact regardless of
the inner action's outcome; an `after` artifact iff the inner action
returned `ok=true`; an `error` artifact iff the inner action raised; and
a handled failure (`ok=false`) adds nothing beyond `before`. -/
theorem evidence_artifact_invariant (env : ExecEnv) (a r pb pa pe : String)
    (hs : env.hasStore = true)
    (h1 : env.shotBefore = .ok pb) (h2 : env.saveBefore = .ok ())
    (h3 : env.shotAfter = .ok pa) (h4 : env.saveAfter = .ok ())
    (h5 : env.shotError = .ok pe) (h6 : env.saveError = .ok ()) :
    countType .before (execute env a r).2 = 1 ∧
    (countType .after (execute env a r).2 = 1 ↔
      ∃ res, env.doAction = .ok res ∧ res.ok = true) ∧
    (countType .error (execute env a r).2 = 1 ↔
      ∃ e, env.doAction = .error e) ∧
    (∀ res, env.doAction = .ok res → res.ok = false →
      (execute env a r).2.map Artifact.atype = [.before]) := by
  cases hda : env.doAction with
  | error e =>
    refine ⟨?_, ?_, ?_, ?_⟩ <;>
      simp [execute, executeTryBranch, executeExceptBranch, hs, h1, h2, h3,
        h4, h5, h6, hda, countType, save_artifact_record]
  | ok result =>
    cases hok : result.ok with
    | true =>
      refine ⟨?_, ?_, ?_, ?_⟩ <;>
        simp [execute, executeTryBranch, executeExceptBranch, hs, h1, h2, h3,
          h4, h5, h6, hda, hok, countType, save_artifact_record]
    | false =>
      refine ⟨?_, ?_, ?_, ?_⟩ <;>
        simp [execute, executeTryBranch, executeExceptBranch, hs, h1, h2, h3,
          h4, h5, h6, hda, hok, countType, save_artifact_record]

/-- A fully healthy store-attached `ExecEnv` with a succeeding action. -/
def healthyOkEnv : ExecEnv where
  hasStore := true
  shotBefore := .ok "before.png"
  saveBefore := .ok ()
  doAction := .ok { ok := true, action := "fetch_ads_summary" }
  shotAfter := .ok "after.png"
  saveAfter := .ok ()
  shotError := .ok "error.png"
  saveError := .ok ()
  elapsedMs := 12

/-- Witness for C2 on a concrete successful run: artifacts `before` and
`after`, no `error`. -/
theorem evidence_artifact_invariant_witness :
    countType .before (execute healthyOkEnv "fetch_ads_summary" "r-2").2 = 1 ∧
    (countType .after (execute healthyOkEnv "fetch_ads_summary" "r-2").2 = 1 ↔
      ∃ res, healthyOkEnv.doAction = .ok res ∧ res.ok = true) ∧
    (countType .error (execute healthyOkEnv "fetch_ads_summary" "r-2").2 = 1 ↔
      ∃ e, healthyOkEnv.doAction = .error e) ∧
    (∀ res, healthyOkEnv.doAction = .ok res → res.ok = false →
      (execute healthyOkEnv "fetch_ads_summary" "r-2").2.map Artifact.atype =
        [.before]) :=
  evidence_artifact_invariant healthyOkEnv "fetch_ads_summary" "r-2"
    "before.png" "after.png" "error.png" rfl rfl rfl rfl rfl rfl rfl

/-- C3: every task the Worker claims is first set to `running` and then to
exactly one terminal status — `success` or `failed` — so the persisted
history `queued :: statuses` is strictly increasing along the lifecycle
order (no `success→running`, `failed→queued`, or any other reversal);
a propagated exception from the Executor also lands in `failed`. -/
theorem task_status_monotonic (penv : PoolEnv)
    (active : List (String × BrowserController)) (execEnv : ExecEnv)
    (shop_id action_name run_id : String) :
    ∃ final,
      (execute_task penv active execEnv shop_id action_name run_id).1.statuses =
        [.running, final] ∧
      (final = .success ∨ final = .failed) ∧
      ((∃ e arts, execute execEnv action_name run_id = (.error e, arts)) →
        final = .failed) ∧
      List.Chain' (fun x y => statusRank x < statusRank y)
        (TaskStatus.queued ::
          (execute_task penv active execEnv shop_id action_name run_id).1.statuses) := by
  rcases hgb : get_browser_for_shop penv active shop_id with ⟨browser?, active', n⟩
  cases browser? with
  | none =>
    refine ⟨.failed, ?_, Or.inr rfl, fun _ => rfl, ?_⟩ <;>
      simp [execute_task, hgb, statusRank]
  | some c =>
    by_cases hreg : action_name ∈ ACTION_REGISTRY
    · rcases hex : execute execEnv action_name run_id with ⟨res, arts⟩
      cases res with
      | error e =>
        refine ⟨.failed, ?_, Or.inr rfl, fun _ => rfl, ?_⟩ <;>
          simp [execute_task, hgb, hreg, hex, statusRank]
      | ok result =>
        cases hok : result.ok with
        | true =>
          refine ⟨.success, ?_, Or.inl rfl, ?_, ?_⟩
          · simp [execute_task, hgb, hreg, hex, hok]
          · rintro ⟨e, arts', he⟩
            simp at he
          · simp [execute_task, hgb, hreg, hex, hok, statusRank]
        | false =>
          refine ⟨.failed, ?_, Or.inr rfl, fun _ => rfl, ?_⟩ <;>
            simp [execute_task, hgb, hreg, hex, hok, statusRank]
    · refine ⟨.failed, ?_, Or.inr rfl, fun _ => rfl, ?_⟩ <;>
        simp [execute_task, hgb, hreg, statusRank]

/-- Witness for C3 at a concrete environment (empty pool, empty tenant
map, so session acquisition fails and the task ends `failed`). -/
theorem task_status_monotonic_witness :
    ∃ final,
      (execute_task ⟨[], fun _ => ⟨false, Option.none, Option.none, Option.none,
          Option.none⟩, fun _ => false⟩ [] healthyOkEnv "shop-1" "update_title"
          "r-3").1.statuses = [.running, final] ∧
      (final = .success ∨ final = .failed) ∧
      ((∃ e arts, execute healthyOkEnv "update_title" "r-3" = (.error e, arts)) →
        final = .failed) ∧
      List.Chain' (fun x y => statusRank x < statusRank y)
        (TaskStatus.queued ::
          (execute_task ⟨[], fun _ => ⟨false, Option.none, Option.none,
              Option.none, Option.none⟩, fun _ => false⟩ [] healthyOkEnv
              "shop-1" "update_title" "r-3").1.statuses) :=
  task_status_monotonic ⟨[], fun _ => ⟨false, Option.none, Option.none,
    Option.none, Option.none⟩, fun _ => false⟩ [] healthyOkEnv "shop-1"
    "update_title" "r-3"

/-- Helper for C8: with no cached handle, session acquisition yields no
controller when the tenant is unmapped, the start call fails, or the
connectivity check fails — and the pool state is unchanged. -/
theorem get_browser_fails_aux (penv : PoolEnv)
    (active : List (String × BrowserController)) (shop_id : String)
    (hactive : active.lookup shop_id = Option.none)
    (hfail : penv.shop_browser_map.lookup shop_id = Option.none ∨
      (∃ bid, penv.shop_browser_map.lookup shop_id = some bid ∧
        ((penv.start_browser bid).success = false ∨
          penv.connect ((penv.start_browser bid).debugging_port.getD 0) = false))) :
    ∃ n, get_browser_for_shop penv active shop_id = (Option.none, active, n) := by
  rcases hfail with hm | ⟨bid, hm, hfail⟩
  · exact ⟨0, by simp [get_browser_for_shop, hactive, hm]⟩
  · rcases hfail with hsucc | hconn
    · exact ⟨1, by simp [get_browser_for_shop, hactive, hm, hsucc]⟩
    · cases hsucc : (penv.start_browser bid).success with
      | false => exact ⟨1, by simp [get_browser_for_shop, hactive, hm, hsucc]⟩
      | true => exact ⟨1, by simp [get_browser_for_shop, hactive, hm, hsucc, hconn]⟩

/-- C8: a task whose tenant has no live handle and cannot be provisioned
(unmapped tenant, failed start call, or failed connectivity check) goes
directly to `failed`, with the acquisition failure recorded as the run's
error, no Action ever invoked, and no run artifacts created. -/
theorem provision_failure_fails_task (penv : PoolEnv)
    (active : List (String × BrowserController)) (execEnv : ExecEnv)
    (shop_id action_name run_id : String)
    (hactive : active.lookup shop_id = Option.none)
    (hfail : penv.shop_browser_map.lookup shop_id = Option.none ∨
      (∃ bid, penv.shop_browser_map.lookup shop_id = some bid ∧
        ((penv.start_browser bid).success = false ∨
          penv.connect ((penv.start_browser bid).debugging_port.getD 0) = false))) :
    execute_task penv active execEnv shop_id action_name run_id =
      ({ statuses := [.running, .failed],
         runError := some ("无法获取店铺 " ++ shop_id ++ " 的浏览器"),
         artifacts := [], actionInvoked := false }, active) := by
  obtain ⟨n, hgb⟩ := get_browser_fails_aux penv active shop_id hactive hfail
  simp [execute_task, hgb]

/-- Witness for C8 at a concrete unmapped tenant. -/
theorem provision_failure_fails_task_witness :
    execute_task ⟨[], fun _ => ⟨false, Option.none, Option.none, Option.none,
        Option.none⟩, fun _ => false⟩ [] healthyOkEnv "shop-9"
      "fetch_ads_summary" "r-4" =
      ({ statuses := [.running, .failed],
         runError := some ("无法获取店铺 " ++ "shop-9" ++ " 的浏览器"),
         artifacts := [], actionInvoked := false }, []) :=
  provision_failure_fails_task ⟨[], fun _ => ⟨false, Option.none, Option.none,
      Option.none, Option.none⟩, fun _ => false⟩ [] healthyOkEnv "shop-9"
    "fetch_ads_summary" "r-4" rfl (Or.inl rfl)

/-- Helper: a key absent from the left part of an association list is
looked up in the right part. -/
theorem lookup_append_left_none {β : Type} (l₁ l₂ : List (String × β))
    (a : String) (h : l₁.lookup a = Option.none) :
    (l₁ ++ l₂).lookup a = l₂.lookup a := by
  induction l₁ with
  | nil => rfl
  | cons p t ih =>
    rcases p with ⟨k, v⟩
    cases hk : a == k with
    | true => simp [List.lookup, hk] at h
    | false =>
      simp only [List.lookup, hk] at h
      simpa [List.lookup, hk] using ih h

/-- C5: session-pool affinity.  After a successful acquire for a tenant,
a second acquire returns the identical handle, leaves the pool unchanged,
and issues zero provisioning calls; an acquire for any tenant with no
live handle but a mapped provisioning id issues exactly one provisioning
call. -/
theorem session_pool_affinity (penv : PoolEnv)
    (active : List (String × BrowserController)) (t : String)
    (c : BrowserController) (active' : List (String × BrowserController))
    (n : Nat)
    (h : get_browser_for_shop penv active t = (some c, active', n)) :
    get_browser_for_shop penv active' t = (some c, active', 0) ∧
    ∀ t2 bid, active'.lookup t2 = Option.none →
      penv.shop_browser_map.lookup t2 = some bid →
      (get_browser_for_shop penv active' t2).2.2 = 1 := by
  constructor
  · cases hl : active.lookup t with
    | some c0 =>
      simp only [get_browser_for_shop, hl] at h
      injection h with h1 h2
      injection h2 with h2a h2b
      injection h1 with hc
      subst hc
      subst h2a
      simp [get_browser_for_shop, hl]
    | none =>
      cases hm : penv.shop_browser_map.lookup t with
      | none => simp [get_browser_for_shop, hl, hm] at h
      | some bid =>
        cases hsucc : (penv.start_browser bid).success with
        | false => simp [get_browser_for_shop, hl, hm, hsucc] at h
        | true =>
          cases hconn : penv.connect ((penv.start_browser bid).debugging_port.getD 0) with
          | false => simp [get_browser_for_shop, hl, hm, hsucc, hconn] at h
          | true =>
            simp only [get_browser_for_shop, hl, hm, hsucc, hconn,
              Bool.not_true, Bool.false_eq_true, if_false] at h
            injection h with h1 h2
            injection h2 with h2a h2b
            injection h1 with hc
            have hlook : active'.lookup t = some c := by
              rw [← h2a, lookup_append_left_none active _ t hl]
              simpa [List.lookup] using hc
            simp [get_browser_for_shop, hlook]
  · intro t2 bid h1 h2
    cases hsucc : (penv.start_browser bid).success with
    | false => simp [get_browser_for_shop, h1, h2, hsucc]
    | true =>
      cases hconn : penv.connect ((penv.start_browser bid).debugging_port.getD 0) with
      | false => simp [get_browser_for_shop, h1, h2, hsucc, hconn]
      | true => simp [get_browser_for_shop, h1, h2, hsucc, hconn]

/-- The pool environment used to witness C5: two mapped tenants, a
provisioning service that always succeeds on port 9222, and a browser
that always connects. -/
def demoPoolEnv : PoolEnv where
  shop_browser_map := [("shopA", "1001"), ("shopB", "1002")]
  start_browser := fun _ =>
    { success := true, debugging_port := some 9222,
      core_type := some "chrome", core_version := Option.none }
  connect := fun _ => true

/-- Witness for C5: acquire `shopA` into an empty pool, then re-acquire
`shopA` (same handle, no provisioning call) and acquire the fresh tenant
`shopB` (exactly one provisioning call). -/
theorem session_pool_affinity_witness :
    (get_browser_for_shop demoPoolEnv
        [("shopA", ⟨9222, "131"⟩)] "shopA" =
      (some ⟨9222, "131"⟩, [("shopA", ⟨9222, "131"⟩)], 0)) ∧
    (get_browser_for_shop demoPoolEnv
        [("shopA", ⟨9222, "131"⟩)] "shopB").2.2 = 1 :=
  ⟨(session_pool_affinity demoPoolEnv [] "shopA" ⟨9222, "131"⟩
      [("shopA", ⟨9222, "131"⟩)] 1 (by rfl)).1,
   (session_pool_affinity demoPoolEnv [] "shopA" ⟨9222, "131"⟩
      [("shopA", ⟨9222, "131"⟩)] 1 (by rfl)).2 "shopB" "1002" (by rfl) (by rfl)⟩

/-- Unfolding of `sortsBefore u b = false`: `u` does not precede `b` in the
`priority DESC, created_at ASC` order. -/
theorem sortsBefore_false_iff (u b : QTask) :
    sortsBefore u b = false ↔
      (u.priority ≤ b.priority ∧
        (u.priority = b.priority → b.created_at ≤ u.created_at)) := by
  simp only [sortsBefore, Bool.or_eq_false_iff, Bool.and_eq_false_iff,
    decide_eq_false_iff_not, not_lt, beq_eq_false_iff_ne, ne_eq, beq_iff_eq]
  constructor
  · rintro ⟨h1, h2 | h2⟩
    · exact ⟨h1, fun he => absurd he h2⟩
    · exact ⟨h1, fun _ => h2⟩
  · rintro ⟨h1, h2⟩
    refine ⟨h1, ?_⟩
    by_cases he : u.priority = b.priority
    · exact Or.inr (h2 he)
    · exact Or.inl he

/-- Unfolding of `sortsBefore b a = true`: `b` strictly precedes `a`. -/
theorem sortsBefore_true_iff (b a : QTask) :
    sortsBefore b a = true ↔
      (a.priority < b.priority ∨
        (b.priority = a.priority ∧ b.created_at < a.created_at)) := by
  simp [sortsBefore]

/-- No task strictly precedes itself. -/
theorem sortsBefore_irrefl (a : QTask) : sortsBefore a a = false := by
  rw [sortsBefore_false_iff]
  exact ⟨le_refl _, fun _ => le_refl _⟩

/-- The relation "does not precede" is transitive. -/
theorem sortsBefore_trans_false (u a b : QTask)
    (h1 : sortsBefore u a = false) (h2 : sortsBefore a b = false) :
    sortsBefore u b = false := by
  rw [sortsBefore_false_iff] at h1 h2 ⊢
  obtain ⟨hp1, hc1⟩ := h1
  obtain ⟨hp2, hc2⟩ := h2
  refine ⟨le_trans hp1 hp2, fun he => ?_⟩
  have e1 : u.priority = a.priority := by omega
  have e2 : a.priority = b.priority := by omega
  exact le_trans (hc2 e2) (hc1 e1)

/-- The relation "strictly precedes" is transitive. -/
theorem sortsBefore_trans_true (t a b : QTask)
    (h1 : sortsBefore t a = true) (h2 : sortsBefore a b = true) :
    sortsBefore t b = true := by
  rw [sortsBefore_true_iff] at h1 h2 ⊢
  rcases h1 with h1 | ⟨h1e, h1c⟩ <;> rcases h2 with h2 | ⟨h2e, h2c⟩
  · exact Or.inl (by omega)
  · exact Or.inl (by omega)
  · exact Or.inl (by omega)
  · exact Or.inr ⟨by omega, by omega⟩

/-- Invariant of the `pickBest` scan: starting from `some a`, the fold
ends on an element of `{a} ∪ l` that nothing in `l` (nor `a`) strictly
precedes. -/
theorem pick_aux (l : List QTask) (a : QTask) :
    ∃ b, l.foldl pickBest (some a) = some b ∧ (b = a ∨ b ∈ l) ∧
      sortsBefore a b = false ∧ ∀ u ∈ l, sortsBefore u b = false := by
  induction l generalizing a with
  | nil => exact ⟨a, rfl, Or.inl rfl, sortsBefore_irrefl a, by simp⟩
  | cons t ts ih =>
    cases hta : sortsBefore t a with
    | true =>
      obtain ⟨b, hfold, hmem, htb, hall⟩ := ih t
      refine ⟨b, ?_, ?_, ?_, ?_⟩
      · simpa [List.foldl, pickBest, hta] using hfold
      · rcases hmem with rfl | hmem
        · exact Or.inr (List.mem_cons_self _ _)
        · exact Or.inr (List.mem_cons_of_mem _ hmem)
      · cases hab : sortsBefore a b with
        | false => rfl
        | true =>
          have := sortsBefore_trans_true t a b hta hab
          rw [this] at htb
          cases htb
      · intro u hu
        rcases List.mem_cons.mp hu with rfl | hu'
        · exact htb
        · exact hall u hu'
    | false =>
      obtain ⟨b, hfold, hmem, hab, hall⟩ := ih a
      refine ⟨b, ?_, ?_, hab, ?_⟩
      · simpa [List.foldl, pickBest, hta] using hfold
      · rcases hmem with rfl | hmem
        · exact Or.inl rfl
        · exact Or.inr (List.mem_cons_of_mem _ hmem)
      · intro u hu
        rcases List.mem_cons.mp hu with rfl | hu'
        · exact sortsBefore_trans_false u a b hta hab
        · exact hall u hu'

/-- The three tasks of the spec's ordering scenario: `t1`, `t3` at
priority 5, `t2` at priority 1, created in order `t1, t2, t3`. -/
def demoT1 : QTask := { id := "t1", status := .queued, priority := 5, created_at := 1 }

/-- Second scenario task (priority 1). -/
def demoT2 : QTask := { id := "t2", status := .queued, priority := 1, created_at := 2 }

/-- Third scenario task (priority 5, created last). -/
def demoT3 : QTask := { id := "t3", status := .queued, priority := 5, created_at := 3 }

/-- C6: `get_next_task` reports no task iff no queued task exists; any
task it returns is a queued task that maximises priority, with ties broken
by the earliest `created_at`; and on the scenario tasks (priorities
`[5,1,5]`, creation order `t1,t2,t3`) repeated selection yields
`t1, t3, t2`. -/
theorem next_task_priority_order (tasks : List QTask) :
    (get_next_task tasks = Option.none ↔
      ∀ t ∈ tasks, t.status ≠ TaskStatus.queued) ∧
    (∀ t, get_next_task tasks = some t →
      t ∈ tasks ∧ t.status = .queued ∧
      ∀ u ∈ tasks, u.status = .queued →
        u.priority ≤ t.priority ∧
        (u.priority = t.priority → t.created_at ≤ u.created_at)) ∧
    drainOrder 3 [demoT1, demoT2, demoT3] = ["t1", "t3", "t2"] := by
  refine ⟨?_, ?_, by decide⟩
  · constructor
    · intro hnone
      intro t ht hq
      have hmem : t ∈ tasks.filter (fun x => x.status == .queued) :=
        List.mem_filter.mpr ⟨ht, by simp [hq]⟩
      cases hf : tasks.filter (fun x => x.status == .queued) with
      | nil => rw [hf] at hmem; cases hmem
      | cons h rest =>
        obtain ⟨b, hb, _⟩ := pick_aux rest h
        unfold get_next_task at hnone
        rw [hf] at hnone
        simp only [List.foldl, pickBest] at hnone
        rw [hb] at hnone
        cases hnone
    · intro hall
      unfold get_next_task
      have hf : tasks.filter (fun x => x.status == .queued) = [] :=
        List.filter_eq_nil_iff.mpr (by
          intro a ha
          simpa using hall a ha)
      rw [hf]
      rfl
  · intro t ht
    unfold get_next_task at ht
    cases hf : tasks.filter (fun x => x.status == .queued) with
    | nil => rw [hf] at ht; cases ht
    | cons h rest =>
      rw [hf] at ht
      obtain ⟨b, hb, hmem, hab, hall⟩ := pick_aux rest h
      simp only [List.foldl, pickBest] at ht
      rw [hb] at ht
      injection ht with ht
      subst t
      have hbf : b ∈ tasks.filter (fun x => x.status == .queued) := by
        rw [hf]
        rcases hmem with rfl | hmem
        · exact List.mem_cons_self _ _
        · exact List.mem_cons_of_mem _ hmem
      obtain ⟨htasks, hqueued⟩ := List.mem_filter.mp hbf
      refine ⟨htasks, by simpa using hqueued, ?_⟩
      intro u hu huq
      have humem : u ∈ tasks.filter (fun x => x.status == .queued) :=
        List.mem_filter.mpr ⟨hu, by simp [huq]⟩
      have hnb : sortsBefore u b = false := by
        rw [hf] at humem
        rcases List.mem_cons.mp humem with rfl | hu'
        · exact hab
        · exact hall u hu'
      rw [sortsBefore_false_iff] at hnb
      exact hnb

/-- Witness for C6: apply the ordering theorem to the scenario list,
obtaining that the selected `t1` is queued and optimal there. -/
theorem next_task_priority_order_witness :
    demoT1 ∈ [demoT1, demoT2, demoT3] ∧ demoT1.status = .queued ∧
    ∀ u ∈ [demoT1, demoT2, demoT3], u.status = .queued →
      u.priority ≤ demoT1.priority ∧
      (u.priority = demoT1.priority → demoT1.created_at ≤ u.created_at) :=
  (next_task_priority_order [demoT1, demoT2, demoT3]).2.1 demoT1 (by decide)

end ShopeeAgent
